import Mathlib

set_option maxRecDepth 100000

/-!
Formal model of the sheet-music validation and conversion pipeline of the
PAP_WalissonGandorini repository.

The model is a shallow embedding of:
  * the conversion microservice `conversion-service/server.js`
    (an Express variant and a Deno edge-function variant share the file),
  * the intake / detection logic of `src/pages/Upload.tsx`.

Pure computations (the MEI template, the regex pattern bank, extension
dispatch) are embedded as Lean functions; the effectful parts (Supabase
reads and writes, OCR, the file system) are embedded as explicit state
passing with oracle parameters for the external effects.
-/

/- ### Conversion job status (column `music_sheets.conversion_status`) -/

inductive ConvStatus
  | pending
  | processing
  | completed
  | failed
deriving DecidableEq, Repr

/-- A terminal conversion state, per the spec's state machine. -/
def ConvStatus.isTerminal : ConvStatus → Bool
  | .completed => true
  | .failed => true
  | _ => false

/- One row of `music_sheets`, restricted to the columns the conversion
service reads or writes. -/
structure SheetRow where
  conversion_status : ConvStatus
  conversion_error : Option String
  mei_url : Option String
deriving DecidableEq, Repr

/- The `music_sheets` table, keyed by file id.  `none` means no row. -/
def SheetDB := String → Option SheetRow

/-- `supabase.from('music_sheets').update({conversion_status: s}).eq('id', id)`:
updates the row when it exists, is a no-op (and no error) otherwise. -/
def dbSetStatus (db : SheetDB) (id : String) (s : ConvStatus) : SheetDB :=
  fun k => if k = id then (db k).map (fun r => { r with conversion_status := s }) else db k

/- ### `app.post('/convert')` (server.js lines 86-142), synchronous part.

The handler validates the presence of `fileId` and `filePath` (JS falsiness
of the empty string) and then unconditionally updates
`conversion_status` to `processing` before spawning the background
conversion.  No check of the row's current status is performed. -/

inductive ConvertResp
  | badRequest (msg : String)
  | accepted (fileId : String)
deriving DecidableEq, Repr

def convertHandler (db : SheetDB) (fileId filePath : String) : SheetDB × ConvertResp :=
  if fileId = "" ∨ filePath = "" then
    (db, .badRequest "Dados obrigatórios ausentes")
  else
    (dbSetStatus db fileId .processing, .accepted fileId)

/- A one-row database used as concrete input below. -/
def dbCompleted : SheetDB :=
  fun k => if k = "f1" then
    some { conversion_status := .completed, conversion_error := none,
           mei_url := some "u1/a.mei" }
  else none

/-- C1 as stated: handling `POST /convert` never overwrites a terminal
`conversion_status`.  Refuted below. -/
def claimC1 : Prop :=
  ∀ (db : SheetDB) (fileId filePath : String) (row : SheetRow),
    db fileId = some row →
    row.conversion_status.isTerminal = true →
    (convertHandler db fileId filePath).1 fileId = some row

/-- C1 counterexample: a job whose status is `completed` is moved back to
`processing` by a `POST /convert` request for the same file id; no new job
is created, the terminal record itself is mutated. -/
theorem convert_overwrites_terminal_counterexample : ¬ claimC1 := by
  intro h
  have := h dbCompleted "f1" "u1/a.musicxml"
    { conversion_status := .completed, conversion_error := none,
      mei_url := some "u1/a.mei" }
    (by rfl) (by rfl)
  simp [convertHandler, dbSetStatus, dbCompleted] at this

/-- C1 amended: for every well-formed `POST /convert` request whose file id
has a row, the handler forces `conversion_status` to `processing`,
regardless of the current status — terminal states included. -/
theorem convert_always_forces_processing
    (db : SheetDB) (fileId filePath : String) (row : SheetRow)
    (hid : fileId ≠ "") (hp : filePath ≠ "")
    (hrow : db fileId = some row) :
    (convertHandler db fileId filePath).1 fileId =
      some { row with conversion_status := .processing } := by
  simp [convertHandler, hid, hp, dbSetStatus, hrow]

/-- Witness for `convert_always_forces_processing` at a concrete
terminal-state row. -/
theorem convert_always_forces_processing_witness :
    (convertHandler dbCompleted "f1" "u1/a.musicxml").1 "f1" =
      some { conversion_status := .processing, conversion_error := none,
             mei_url := some "u1/a.mei" } := by
  exact convert_always_forces_processing dbCompleted "f1" "u1/a.musicxml"
    { conversion_status := .completed, conversion_error := none,
      mei_url := some "u1/a.mei" }
    (by decide) (by decide) (by rfl)

/- ### The simulated converter (`processFile`, both variants).

Both variants write the same hard-coded MEI template (server.js lines
229-264 and 605-640), whose only varying parts are the source file name
and the first ten characters of `new Date().toISOString()`. -/

def meiPre : String := "<?xml version=\"1.0\" encoding=\"UTF-8\"?>
<?xml-model href=\"https://music-encoding.org/schema/4.0.0/mei-all.rng\" type=\"application/xml\" schematypens=\"http://relaxng.org/ns/structure/1.0\"?>
<mei xmlns=\"http://www.music-encoding.org/ns/mei\" meiversion=\"4.0.0\">
  <meiHead>
    <fileDesc>
      <titleStmt>
        <title>Arquivo convertido de "

def meiMid : String := "</title>
      </titleStmt>
      <pubStmt>
        <date isodate=\""

def meiSuf : String := "\"/>
      </pubStmt>
    </fileDesc>
  </meiHead>
  <music>
    <body>
      <mdiv>
        <score>
          <scoreDef>
            <staffGrp>
              <staffDef n=\"1\" lines=\"5\" clef.shape=\"G\" clef.line=\"2\"/>
            </staffGrp>
          </scoreDef>
          <section>
            <measure n=\"1\">
              <staff n=\"1\">
                <layer n=\"1\">
                  <note pname=\"c\" oct=\"4\" dur=\"1\"/>
                </layer>
              </staff>
            </measure>
          </section>
        </score>
      </mdiv>
    </body>
  </music>
</mei>"

/-- `meiTemplate` of server.js: the template literal with `${fileName}` and
the date (`new Date().toISOString().substring(0, 10)`) interpolated. -/
def meiTemplate (fileName date : String) : String :=
  meiPre ++ fileName ++ meiMid ++ date ++ meiSuf

/-- The characters after the last `'.'` of the list, or `none` when no dot
occurs. -/
def afterLastDot : List Char → Option (List Char)
  | [] => none
  | c :: rest =>
    match afterLastDot rest with
    | some t => some t
    | none => if c = '.' then some rest else none

/-- Node variant extension extraction
(`path.extname(fileName).toLowerCase().substring(1)`, line 170):
lowercased characters after the last dot, `""` when the name has no dot. -/
def extOfNode (fileName : String) : String :=
  match afterLastDot fileName.data with
  | none => ""
  | some t => ⟨t.map Char.toLower⟩

/-- Edge variant extension extraction
(`(fileName.split(".").pop() || "").toLowerCase()`, line 528): the last
dot-separated component, which is the whole name when there is no dot. -/
def extOfEdge (fileName : String) : String :=
  match afterLastDot fileName.data with
  | none => ⟨fileName.data.map Char.toLower⟩
  | some t => ⟨t.map Char.toLower⟩

/-- Artifact content produced by the Node `processFile`
(server.js lines 145-326) as a function of the source file name, the
conversion date, and the downloaded file bytes.  The bytes are written to
the temp dir and, in the MusicXML branch, become the intermediate
MusicXML path's content (line 214), but the MEI written at line 266 is
always the fixed template. -/
def nodeArtifact (fileName date bytes : String) : Except String String :=
  let fileExt := extOfNode fileName
  if fileExt = "pdf" then
    -- the simulated Audiveris step writes a fixed sample MusicXML, then the template
    Except.ok (meiTemplate fileName date)
  else if fileExt = "xml" ∨ fileExt = "musicxml" ∨ fileExt = "mxl" then
    let _musicXmlContent := bytes
    Except.ok (meiTemplate fileName date)
  else
    Except.error ("Formato não suportado: " ++ fileExt)

/-- Artifact content produced by the Deno edge `processFile`
(server.js lines 482-714); it additionally accepts `svg`. -/
def edgeArtifact (fileName date bytes : String) : Except String String :=
  let fileExt := extOfEdge fileName
  if fileExt = "pdf" then
    Except.ok (meiTemplate fileName date)
  else if fileExt = "xml" ∨ fileExt = "musicxml" ∨ fileExt = "mxl" then
    let _musicXmlContent := bytes
    Except.ok (meiTemplate fileName date)
  else if fileExt = "svg" then
    Except.ok (meiTemplate fileName date)
  else
    Except.error ("Tipo de arquivo não suportado: " ++ fileExt)

/- ### Measure counting (re-parsing the claim's `<measure>` elements) -/

/-- Number of positions of `s` at which `pat` occurs (occurrences of the
opening tag cannot overlap, so this is the element count). -/
def countOccs (pat : List Char) : List Char → Nat
  | [] => if pat = [] then 1 else 0
  | c :: rest =>
    (if pat.isPrefixOf (c :: rest) then 1 else 0) + countOccs pat rest

/-- Number of `<measure` opening tags in an XML document. -/
def countMeasures (s : String) : Nat :=
  countOccs "<measure".data s.data

/-- Modelled from the spec: "inputs classified `score` that are valid
MusicXML" — the detector's score test for markup inputs is the presence of
a `score-partwise` element, used here as the validity/classification
proxy. -/
def isScorePartwise (s : String) : Bool :=
  0 < countOccs "<score-partwise".data s.data

/-- A concrete, well-formed two-measure MusicXML score. -/
def twoMeasureXml : String := "<?xml version=\"1.0\" encoding=\"UTF-8\"?>
<score-partwise version=\"3.1\">
  <part-list>
    <score-part id=\"P1\"><part-name>Music</part-name></score-part>
  </part-list>
  <part id=\"P1\">
    <measure number=\"1\">
      <note><pitch><step>C</step><octave>4</octave></pitch><duration>4</duration><type>whole</type></note>
    </measure>
    <measure number=\"2\">
      <note><pitch><step>D</step><octave>4</octave></pitch><duration>4</duration><type>whole</type></note>
    </measure>
  </part>
</score-partwise>"

/-- C2 as stated: for every score-classified valid MusicXML input, the MEI
output re-parses to the same number of `<measure>` elements as the source. -/
def claimC2 : Prop :=
  ∀ (src fileName date out : String),
    isScorePartwise src = true →
    (extOfNode fileName = "xml" ∨ extOfNode fileName = "musicxml" ∨
      extOfNode fileName = "mxl") →
    nodeArtifact fileName date src = Except.ok out →
    countMeasures out = countMeasures src

/-- C2 counterexample: converting a two-measure MusicXML file yields the
one-measure template. -/
theorem measure_count_not_preserved : ¬ claimC2 := by
  intro h
  have := h twoMeasureXml "song.musicxml" "2025-01-01"
    (meiTemplate "song.musicxml" "2025-01-01")
    (by decide) (by decide) (by rfl)
  have h2 : countMeasures (meiTemplate "song.musicxml" "2025-01-01") = 1 := by decide
  have h3 : countMeasures twoMeasureXml = 2 := by decide
  omega

/-- C2 amended: the measure count of the produced MEI is independent of
the source content (the template is fixed), and for a concrete MusicXML
conversion it is exactly 1 — so the count is preserved only for
single-measure sources. -/
theorem measure_count_independent_of_source :
    (∀ (src₁ src₂ fileName date : String),
      (nodeArtifact fileName date src₁).map countMeasures =
        (nodeArtifact fileName date src₂).map countMeasures) ∧
    countMeasures (meiTemplate "song.musicxml" "2025-01-01") = 1 := by
  refine ⟨fun src₁ src₂ fileName date => rfl, by decide⟩

/- ### C6: byte-level idempotence across runs.

Two runs of the converter on the same input differ only in the value of
`new Date()`; the template interpolates the date's first ten characters,
so the byte output is a function of the file name and the run date. -/

deriving instance DecidableEq for Except

/-- C6 as stated: converting the same input twice (at any two run dates)
with the same converter version yields byte-identical MEI output. -/
def claimC6 : Prop :=
  ∀ (fileName date₁ date₂ bytes : String),
    nodeArtifact fileName date₁ bytes = nodeArtifact fileName date₂ bytes

/-- C6 counterexample: two runs on consecutive days embed different
`isodate` values, so the outputs are not byte-identical. -/
theorem idempotence_fails_across_dates : ¬ claimC6 := by
  intro h
  exact absurd (h "a.musicxml" "2025-01-01" "2025-01-02" "") (by decide)

/-- C6 amended: for a fixed file name, the MEI byte output is determined
by the run date alone — two conversions give byte-identical output exactly
when they run on the same (ten-character ISO) date. -/
theorem mei_output_determined_by_date
    (fileName date₁ date₂ : String)
    (h₁ : date₁.length = 10) (h₂ : date₂.length = 10) :
    meiTemplate fileName date₁ = meiTemplate fileName date₂ ↔ date₁ = date₂ := by
  constructor
  · intro h
    have hd := congrArg String.data h
    simp only [meiTemplate, String.data_append, List.append_assoc] at hd
    have hd₂ := List.append_cancel_left hd
    have hd₃ := List.append_cancel_left hd₂
    have hd₄ := List.append_cancel_left hd₃
    exact String.ext (List.append_inj_left hd₄ (h₁.trans h₂.symm))
  · intro h
    rw [h]

/-- Witness for `mei_output_determined_by_date`: outputs of runs on
2025-01-01 and 2025-01-02 differ. -/
theorem mei_output_determined_by_date_witness :
    meiTemplate "a.musicxml" "2025-01-01" ≠ meiTemplate "a.musicxml" "2025-01-02" := by
  intro h
  have := (mei_output_determined_by_date "a.musicxml" "2025-01-01" "2025-01-02"
    (by decide) (by decide)).mp h
  exact absurd this (by decide)

/- ### C10: noninterference from input bytes to the output artifact. -/

/-- C10: for both `processFile` variants, two inputs with the same file
name converted on the same date produce identical results — the MEI
artifact (or the thrown error) depends only on the file name and the run
date, never on the input bytes. -/
theorem artifact_independent_of_bytes
    (fileName date bytes₁ bytes₂ : String) :
    nodeArtifact fileName date bytes₁ = nodeArtifact fileName date bytes₂ ∧
    edgeArtifact fileName date bytes₁ = edgeArtifact fileName date bytes₂ :=
  ⟨rfl, rfl⟩

/- ### Batch trigger `POST /convert-all` (edge serve handler, lines 379-437). -/

structure PendingFile where
  id : String
  file_url : String
  file_type : String
deriving DecidableEq, Repr

/- One entry of the per-item result list pushed by the batch loop:
`{fileId, success: true}` or `{fileId, success: false, error}`. -/
structure ItemResult where
  fileId : String
  success : Bool
  error : Option String
deriving DecidableEq, Repr

/- The batch response body.  `results = none` models a JSON body with no
`results` field at all (the zero-pending branch, lines 394-399). -/
structure BatchResponse where
  message : String
  results : Option (List ItemResult)
deriving DecidableEq, Repr

/-- The pending query (lines 384-388):
`.eq("conversion_status", "pending").limit(10)`. -/
def pendingPage (rows : List (PendingFile × ConvStatus)) : List PendingFile :=
  ((rows.filter (fun r => r.2 = ConvStatus.pending)).map Prod.fst).take 10

/-- One iteration of the batch loop (lines 403-428): `processFile` in a
`try`, a success entry on return, a failure entry (and a `failed` status
update) in the `catch`.  The per-file outcome of `processFile` is an
oracle parameter. -/
def batchItem (outcome : PendingFile → Except String Unit) (f : PendingFile) : ItemResult :=
  match outcome f with
  | .ok _ => { fileId := f.id, success := true, error := none }
  | .error e => { fileId := f.id, success := false, error := some e }

/-- The whole batch loop: each file of the page is processed in turn; a
`catch` per item means an exception never leaves the loop body. -/
def batchLoop (outcome : PendingFile → Except String Unit) (files : List PendingFile) :
    List ItemResult :=
  files.map (batchItem outcome)

/-- The `/convert-all` branch of the serve handler. -/
def convertAllHandler (rows : List (PendingFile × ConvStatus))
    (outcome : PendingFile → Except String Unit) : BatchResponse :=
  let pending := pendingPage rows
  if pending.isEmpty then
    { message := "Nenhum arquivo pendente para conversão", results := none }
  else
    { message := "Processamento em lote concluído",
      results := some (batchLoop outcome pending) }

/-- C7 as stated: with zero pending files the batch trigger returns the
message "no pending files" together with an empty results list. -/
def claimC7 : Prop :=
  ∀ (rows : List (PendingFile × ConvStatus)) (outcome : PendingFile → Except String Unit),
    pendingPage rows = [] →
    (convertAllHandler rows outcome).message = "no pending files" ∧
    (convertAllHandler rows outcome).results = some []

/-- C7 counterexample: on an empty table the handler answers with the
Portuguese message `Nenhum arquivo pendente para conversão` and a body
that has no `results` field at all. -/
theorem empty_batch_response_counterexample : ¬ claimC7 := by
  intro h
  have := h [] (fun _ => Except.ok ()) rfl
  simp [convertAllHandler, pendingPage] at this

/-- C7 amended: with zero pending files the handler returns status-200
body `{message: "Nenhum arquivo pendente para conversão"}` — no `results`
field is present. -/
theorem empty_batch_returns_message_only
    (rows : List (PendingFile × ConvStatus))
    (outcome : PendingFile → Except String Unit)
    (h : pendingPage rows = []) :
    convertAllHandler rows outcome =
      { message := "Nenhum arquivo pendente para conversão", results := none } := by
  simp [convertAllHandler, h]

/-- Witness for `empty_batch_returns_message_only` on the empty table. -/
theorem empty_batch_returns_message_only_witness :
    convertAllHandler [] (fun _ => Except.ok ()) =
      { message := "Nenhum arquivo pendente para conversão", results := none } :=
  empty_batch_returns_message_only [] (fun _ => Except.ok ()) rfl

/-- C8: the batch page is bounded by 10 files; every file of the page gets
a result entry (a failure of one file never aborts the rest), and a failed
file's entry carries `success = false` and the error message. -/
theorem batch_bounded_and_failure_isolated
    (rows : List (PendingFile × ConvStatus))
    (outcome : PendingFile → Except String Unit) :
    (pendingPage rows).length ≤ 10 ∧
    (batchLoop outcome (pendingPage rows)).length = (pendingPage rows).length ∧
    ∀ f ∈ pendingPage rows,
      batchItem outcome f ∈ batchLoop outcome (pendingPage rows) ∧
      ∀ e, outcome f = Except.error e →
        batchItem outcome f = { fileId := f.id, success := false, error := some e } := by
  refine ⟨?_, ?_, ?_⟩
  · exact List.length_take_le 10 _
  · simp [batchLoop]
  · intro f hf
    refine ⟨List.mem_map_of_mem _ hf, fun e he => ?_⟩
    simp [batchItem, he]

/- Concrete two-file batch used as the witness input: the first file
fails, the second succeeds. -/
def batchRows : List (PendingFile × ConvStatus) :=
  [({ id := "f1", file_url := "u1/a.pdf", file_type := "pdf" }, ConvStatus.pending),
   ({ id := "f2", file_url := "u1/b.pdf", file_type := "pdf" }, ConvStatus.pending)]

def batchOutcome : PendingFile → Except String Unit :=
  fun f => if f.id = "f1" then Except.error "boom" else Except.ok ()

/-- Witness for `batch_bounded_and_failure_isolated`: in a batch where the
first file fails, its failure entry is in the result list and the second
file still gets an entry. -/
theorem batch_bounded_and_failure_isolated_witness :
    (batchLoop batchOutcome (pendingPage batchRows)).length = 2 ∧
    ({ fileId := "f1", success := false, error := some "boom" } : ItemResult) ∈
      batchLoop batchOutcome (pendingPage batchRows) ∧
    ({ fileId := "f2", success := true, error := none } : ItemResult) ∈
      batchLoop batchOutcome (pendingPage batchRows) := by
  have h := batch_bounded_and_failure_isolated batchRows batchOutcome
  have h1 := h.2.2 { id := "f1", file_url := "u1/a.pdf", file_type := "pdf" } (by decide)
  have h2 := h.2.2 { id := "f2", file_url := "u1/b.pdf", file_type := "pdf" } (by decide)
  refine ⟨?_, ?_, ?_⟩
  · have := h.2.1
    simpa [pendingPage, batchRows] using this
  · have he := h1.2 "boom" (by rfl)
    exact he ▸ h1.1
  · have : batchItem batchOutcome { id := "f2", file_url := "u1/b.pdf", file_type := "pdf" } =
      { fileId := "f2", success := true, error := none } := by rfl
    exact this ▸ h2.1

/- ### C9: cleanup errors after a completed conversion.

A conversion run is modelled by the outcomes of its four effectful steps:
the storage download, the artifact upload, the final status update and
the temp-dir cleanup.  Each model returns the ordered list of
`conversion_status` writes the run performs, plus whether the promise
resolves successfully. -/

structure RunEnv where
  downloadOk : Bool
  uploadOk : Bool
  statusUpdateOk : Bool
  cleanupOk : Bool
deriving DecidableEq, Repr

/-- Status writes of the Node `processFile` (server.js lines 145-326).
`fs.rmSync` (line 306) runs inside the outer `try` after the row was
updated to `completed`; a cleanup error is caught at line 312, which
writes `failed`. -/
def nodeRunWrites (fileName : String) (env : RunEnv) : List ConvStatus × Bool :=
  if env.downloadOk = false then ([.failed], false)
  else
    let fileExt := extOfNode fileName
    if fileExt = "pdf" ∨ fileExt = "xml" ∨ fileExt = "musicxml" ∨ fileExt = "mxl" then
      if env.uploadOk = false then ([.failed], false)
      else if env.statusUpdateOk = false then ([.failed], false)
      else if env.cleanupOk = false then ([.completed, .failed], false)
      else ([.completed], true)
    else ([.failed], false)

/-- Status writes of the Deno edge `processFile` (server.js lines
482-714).  It writes `processing` first (line 491); the cleanup
(lines 691-696) sits in its own `try`/`catch` whose handler only logs
("Não falhar por isso"), so a cleanup error changes nothing. -/
def edgeRunWrites (fileName : String) (env : RunEnv) : List ConvStatus × Bool :=
  let rest : List ConvStatus × Bool :=
    if env.downloadOk = false then ([.failed], false)
    else
      let fileExt := extOfEdge fileName
      if fileExt = "pdf" ∨ fileExt = "xml" ∨ fileExt = "musicxml" ∨ fileExt = "mxl" ∨
          fileExt = "svg" then
        if env.uploadOk = false then ([.failed], false)
        else if env.statusUpdateOk = false then ([.failed], false)
        else ([.completed], true)
      else ([.failed], false)
  (.processing :: rest.1, rest.2)

/-- The status the row holds after a run: the last write, or the initial
status when the run wrote nothing. -/
def finalStatus (writes : List ConvStatus) (init : ConvStatus) : ConvStatus :=
  writes.getLastD init

/-- C9 as stated: in every conversion run in which download, upload and
the completion update succeed, a cleanup error never leaves the job in
`failed` — for either `processFile` variant. -/
def claimC9 : Prop :=
  ∀ (fileName : String) (env : RunEnv),
    env.downloadOk = true → env.uploadOk = true → env.statusUpdateOk = true →
    env.cleanupOk = false →
    (extOfNode fileName = "pdf" ∨ extOfNode fileName = "xml" ∨
      extOfNode fileName = "musicxml" ∨ extOfNode fileName = "mxl") →
    finalStatus (nodeRunWrites fileName env).1 .processing ≠ .failed ∧
    finalStatus (edgeRunWrites fileName env).1 .pending ≠ .failed

/-- C9 counterexample: in the Node variant, a failing `fs.rmSync` after
the job was already marked `completed` reaches the outer catch, which
overwrites the status with `failed`. -/
theorem cleanup_error_marks_failed_counterexample : ¬ claimC9 := by
  intro h
  have := h "a.musicxml"
    { downloadOk := true, uploadOk := true, statusUpdateOk := true, cleanupOk := false }
    rfl rfl rfl rfl (by decide)
  exact this.1 (by decide)

/-- C9 amended: the Deno edge variant only logs cleanup errors and the job
stays `completed`, while the Node variant escalates a cleanup error to the
outer catch and flips the already-completed job to `failed`. -/
theorem cleanup_error_split_behavior
    (fileName : String) (env : RunEnv)
    (hd : env.downloadOk = true) (hu : env.uploadOk = true)
    (hs : env.statusUpdateOk = true) (hc : env.cleanupOk = false)
    (hextN : extOfNode fileName = "musicxml")
    (hextE : extOfEdge fileName = "musicxml") :
    nodeRunWrites fileName env = ([.completed, .failed], false) ∧
    edgeRunWrites fileName env = ([.processing, .completed], true) := by
  obtain ⟨d, u, s, c⟩ := env
  simp_all [nodeRunWrites, edgeRunWrites]

/-- Witness for `cleanup_error_split_behavior` at a concrete run. -/
theorem cleanup_error_split_behavior_witness :
    nodeRunWrites "a.musicxml"
      { downloadOk := true, uploadOk := true, statusUpdateOk := true, cleanupOk := false } =
      ([.completed, .failed], false) ∧
    edgeRunWrites "a.musicxml"
      { downloadOk := true, uploadOk := true, statusUpdateOk := true, cleanupOk := false } =
      ([.processing, .completed], true) :=
  cleanup_error_split_behavior "a.musicxml"
    { downloadOk := true, uploadOk := true, statusUpdateOk := true, cleanupOk := false }
    rfl rfl rfl rfl (by decide) (by decide)

/- ### The OCR-text pattern bank of `isMusicSheetOrTab`
(Upload.tsx lines 250-274).

The eleven JavaScript regular expressions are transliterated into a small
regex language with word boundaries, character classes, bounded/unbounded
repetition and case-insensitive literals, interpreted by a
continuation-passing matcher whose fuel bounds the nesting depth of match
attempts.  `rtest r text` is `r.test(text)`: does a match start at some
position of `text`? -/

inductive Regex
  | eps
  | cls (p : Char → Bool)
  | seq (a b : Regex)
  | alt (a b : Regex)
  | rep (lo : Nat) (hi : Option Nat) (a : Regex)
  | wb

/-- JavaScript `\w`: ASCII letters, digits and underscore. -/
def isWordChar (c : Char) : Bool :=
  c.isAlpha || c.isDigit || c = '_'

/-- JavaScript `\b` at a position given by the previous character (`none`
at the start) and the remaining input. -/
def atBoundary (prev : Option Char) (s : List Char) : Bool :=
  let a := match prev with | none => false | some c => isWordChar c
  let b := match s with | [] => false | c :: _ => isWordChar c
  a != b

def mtch : Nat → Regex → Option Char → List Char →
    (Option Char → List Char → Bool) → Bool
  | 0, _, _, _, _ => false
  | fuel + 1, r, prev, s, k =>
    match r with
    | .eps => k prev s
    | .cls p =>
      match s with
      | [] => false
      | c :: t => p c && k (some c) t
    | .seq a b => mtch fuel a prev s (fun p₂ t => mtch fuel b p₂ t k)
    | .alt a b => mtch fuel a prev s k || mtch fuel b prev s k
    | .wb => atBoundary prev s && k prev s
    | .rep lo hi a =>
      match lo with
      | m + 1 =>
        mtch fuel a prev s (fun p₂ t => mtch fuel (.rep m (hi.map Nat.pred) a) p₂ t k)
      | 0 =>
        k prev s ||
          (match hi with
           | some 0 => false
           | _ => mtch fuel a prev s
               (fun p₂ t => mtch fuel (.rep 0 (hi.map Nat.pred) a) p₂ t k))

def searchAux (r : Regex) (fuel : Nat) : Option Char → List Char → Bool
  | prev, [] => mtch fuel r prev [] (fun _ _ => true)
  | prev, c :: t =>
    mtch fuel r prev (c :: t) (fun _ _ => true) || searchAux r fuel (some c) t

/-- `r.test(text)`: unanchored search.  The fuel bounds the nesting depth
of one attempt, far above what the finite patterns below can use on the
given input. -/
def rtest (r : Regex) (text : String) : Bool :=
  searchAux r (1000 + 200 * (text.data.length + 2)) none text.data

def rchar (c : Char) : Regex := .cls (fun x => x = c)
def rcharCI (c : Char) : Regex := .cls (fun x => x.toLower = c.toLower)
def rlit (s : String) : Regex := s.data.foldr (fun c r => .seq (rchar c) r) .eps
def rlitCI (s : String) : Regex := s.data.foldr (fun c r => .seq (rcharCI c) r) .eps

def raltL : List Regex → Regex
  | [] => .cls (fun _ => false)
  | [r] => r
  | r :: rs => .alt r (raltL rs)

def ropt (r : Regex) : Regex := .rep 0 (some 1) r
def rplus (r : Regex) : Regex := .rep 1 none r
def rmin (n : Nat) (r : Regex) : Regex := .rep n none r

/-- A case-insensitive literal with an optional trailing dot, for the
`Rit\.?`-style alternatives. -/
def rlitCIoptDot (s : String) : Regex := .seq (rlitCI s) (ropt (rchar '.'))

/-- `\b(...)\b`. -/
def rbounded (r : Regex) : Regex := .seq .wb (.seq r .wb)

def inRange (lo hi x : Char) : Bool := lo ≤ x && x ≤ hi

/-- `[A-G]`. -/
def noteLetter : Regex := .cls (fun x => inRange 'A' 'G' x)

/-- `(#|b)` and `[#b]`. -/
def sharpFlat : Regex := .cls (fun x => x = '#' || x = 'b')

/-- The class `[-0-9xXhHpPsS\/\\()|=~btrPMpm]` of the tablature-line
pattern. -/
def isTabSymbol (x : Char) : Bool :=
  x = '-' || inRange '0' '9' x || "xXhHpPsS/\\()|=~btrPMpm".data.contains x

/-- The class `[-xXhHpPsS\/\\()|=~btrPMpm]` (no digits) of the fret-run
pattern. -/
def isTabTech (x : Char) : Bool :=
  x = '-' || "xXhHpPsS/\\()|=~btrPMpm".data.contains x

/-- JavaScript `\s` on the code points that occur here. -/
def isJsSpace (x : Char) : Bool :=
  x = ' ' || x = '\t' || x = '\n' || x = '\r' ||
    x.toNat = 11 || x.toNat = 12 || x.toNat = 0xa0 || x.toNat = 0xfeff

def digitChar : Regex := .cls (fun x => inRange '0' '9' x)

/-- `/\b(4\/4|3\/4|2\/4|6\/8|12\/8|alla breve|C)\b/i`. -/
def pTimeSig : Regex :=
  rbounded (raltL [rlitCI "4/4", rlitCI "3/4", rlitCI "2/4", rlitCI "6/8",
    rlitCI "12/8", rlitCI "alla breve", rlitCI "C"])

/-- `/\b(Allegro|Andante|Presto|Moderato|Largo|Vivace|Lento|Adagio|Grave|Rit\.?|Accel\.?|A tempo)\b/i`. -/
def pTempo : Regex :=
  rbounded (raltL [rlitCI "Allegro", rlitCI "Andante", rlitCI "Presto",
    rlitCI "Moderato", rlitCI "Largo", rlitCI "Vivace", rlitCI "Lento",
    rlitCI "Adagio", rlitCI "Grave", rlitCIoptDot "Rit", rlitCIoptDot "Accel",
    rlitCI "A tempo"])

/-- `/\b(ppp|pp|p|mp|mf|f|ff|fff|sfz|cresc\.?|dim\.?|rit\.?|a tempo)\b/i`. -/
def pDynamics : Regex :=
  rbounded (raltL [rlitCI "ppp", rlitCI "pp", rlitCI "p", rlitCI "mp",
    rlitCI "mf", rlitCI "f", rlitCI "ff", rlitCI "fff", rlitCI "sfz",
    rlitCIoptDot "cresc", rlitCIoptDot "dim", rlitCIoptDot "rit",
    rlitCI "a tempo"])

/-- `/\b(Fermata|Slur|Tie|Staccato|Legato|Accent|Marcato|Trill|Mordent|Appoggiatura|Grace note|Repeat|Fine|Da Capo|D\.C\.|D\.S\.|Coda|Segno|Staff|Clef|Key|Time|Bar|Measure|Note|Rest)\b/i`. -/
def pArticulation : Regex :=
  rbounded (raltL [rlitCI "Fermata", rlitCI "Slur", rlitCI "Tie",
    rlitCI "Staccato", rlitCI "Legato", rlitCI "Accent", rlitCI "Marcato",
    rlitCI "Trill", rlitCI "Mordent", rlitCI "Appoggiatura",
    rlitCI "Grace note", rlitCI "Repeat", rlitCI "Fine", rlitCI "Da Capo",
    rlitCI "D.C.", rlitCI "D.S.", rlitCI "Coda", rlitCI "Segno",
    rlitCI "Staff", rlitCI "Clef", rlitCI "Key", rlitCI "Time",
    rlitCI "Bar", rlitCI "Measure", rlitCI "Note", rlitCI "Rest"])

/-- `/((e|B|G|D|A|E)\|[-0-9xXhHpPsS\/\\()|=~btrPMpm]+\n?){4,}/g`. -/
def pTabLines : Regex :=
  rmin 4 (.seq (raltL [rchar 'e', rchar 'B', rchar 'G', rchar 'D',
    rchar 'A', rchar 'E'])
    (.seq (rchar '|') (.seq (rplus (.cls isTabSymbol)) (ropt (rchar '\n')))))

/-- `/EADGBE/i`. -/
def pTabTuning : Regex := rlitCI "EADGBE"

/-- `/[0-9]{1,2}[-xXhHpPsS\/\\()|=~btrPMpm]{2,}/g`. -/
def pFretRun : Regex :=
  .seq (.rep 1 (some 2) digitChar) (.rep 2 none (.cls isTabTech))

/-- `/\b([A-G](#|b)?(m|maj|min|sus|dim|aug|add|m7|maj7|7|9|11|13)?(\/[A-G](#|b)?)?)\b/g`. -/
def pChordWord : Regex :=
  rbounded (.seq noteLetter (.seq (ropt sharpFlat)
    (.seq (ropt (raltL [rlit "m", rlit "maj", rlit "min", rlit "sus",
      rlit "dim", rlit "aug", rlit "add", rlit "m7", rlit "maj7", rlit "7",
      rlit "9", rlit "11", rlit "13"]))
      (ropt (.seq (rchar '/') (.seq noteLetter (ropt sharpFlat)))))))

/-- `(maj7|m7|7|sus4|sus2|dim|aug|add9)`, shared by the bracketed-chord
and chord-sequence patterns. -/
def chordExt : Regex :=
  raltL [rlit "maj7", rlit "m7", rlit "7", rlit "sus4", rlit "sus2",
    rlit "dim", rlit "aug", rlit "add9"]

/-- `/\[([A-G][#b]?m?(maj7|m7|7|sus4|sus2|dim|aug|add9)?(\/[A-G][#b]?)?)\]/g`. -/
def pChordBracket : Regex :=
  .seq (rchar '[') (.seq noteLetter (.seq (ropt sharpFlat)
    (.seq (ropt (rchar 'm')) (.seq (ropt chordExt)
      (.seq (ropt (.seq (rchar '/') (.seq noteLetter (ropt sharpFlat))))
        (rchar ']'))))))

/-- `/([A-G][#b]?m?(maj7|m7|7|sus4|sus2|dim|aug|add9)?\s+){2,}/g`. -/
def pChordSeq : Regex :=
  .rep 2 none (.seq noteLetter (.seq (ropt sharpFlat)
    (.seq (ropt (rchar 'm')) (.seq (ropt chordExt) (rplus (.cls isJsSpace))))))

/-- `/\b(partitura|compasso|clave|notação|nota|pentagrama|compás|clave|notación|partition|mesure|clé|note|battuta|chiave|nota)\b/i`. -/
def pLangWords : Regex :=
  rbounded (raltL [rlitCI "partitura", rlitCI "compasso", rlitCI "clave",
    rlitCI "notação", rlitCI "nota", rlitCI "pentagrama", rlitCI "compás",
    rlitCI "clave", rlitCI "notación", rlitCI "partition", rlitCI "mesure",
    rlitCI "clé", rlitCI "note", rlitCI "battuta", rlitCI "chiave",
    rlitCI "nota"])

/-- The `patterns` array, in source order. -/
def musicPatterns : List Regex :=
  [pTimeSig, pTempo, pDynamics, pArticulation, pTabLines, pTabTuning,
   pFretRun, pChordWord, pChordBracket, pChordSeq, pLangWords]

/-- The counting loop: `if (pattern.test(text)) matches++`. -/
def matchCountOf (text : String) : Nat :=
  musicPatterns.countP (fun p => rtest p text)

/-- `isMusicSheetOrTab` (Upload.tsx line 250): `return matches >= 2`. -/
def isMusicSheetOrTab (text : String) : Bool :=
  decide (2 ≤ matchCountOf text)

/-- Modelled from the spec: the claim's six pattern categories — time
signatures; tempo/dynamics; articulation vocabulary; tablature patterns;
chord-symbol grammar; multilingual vocabulary — each category grouping the
individual patterns it names. -/
def specCategories : List (List Regex) :=
  [[pTimeSig], [pTempo, pDynamics], [pArticulation],
   [pTabLines, pTabTuning, pFretRun],
   [pChordWord, pChordBracket, pChordSeq], [pLangWords]]

/-- Number of distinct categories with at least one matching pattern. -/
def categoryCountOf (text : String) : Nat :=
  specCategories.countP (fun cat => cat.any (fun p => rtest p text))

/-- Modelled from the spec: "classify as valid music notation only if at
least two distinct pattern categories match". -/
def specTwoCategoryRule (text : String) : Bool :=
  decide (2 ≤ categoryCountOf text)

/-- C3 as stated: the detector accepts a text exactly when at least two
distinct pattern categories match it. -/
def claimC3 : Prop :=
  ∀ text : String, isMusicSheetOrTab text = specTwoCategoryRule text

/-- C3 counterexample: the text `Am Gm Dm` matches two patterns of the one
chord-symbol category (the chord-word pattern and the chord-sequence
pattern), so the code accepts it while only one distinct category
matches. -/
theorem two_patterns_one_category_counterexample : ¬ claimC3 := by
  intro h
  have h₁ : isMusicSheetOrTab "Am Gm Dm" = true := by decide
  have h₂ : specTwoCategoryRule "Am Gm Dm" = false := by decide
  have := h "Am Gm Dm"
  rw [h₁, h₂] at this
  exact absurd this (by decide)

/-- Counting groups with a matching member never exceeds counting matching
members over all groups. -/
theorem countP_groups_le {α : Type} (q : α → Bool) (groups : List (List α)) :
    groups.countP (fun g => g.any q) ≤ (groups.flatten).countP q := by
  induction groups with
  | nil => simp
  | cons g gs ih =>
    simp only [List.countP_cons, List.flatten_cons, List.countP_append]
    have hg : (if g.any q then 1 else 0) ≤ g.countP q := by
      by_cases h : g.any q = true
      · simp only [h, if_true]
        have : ∃ a ∈ g, q a := List.any_eq_true.mp h
        exact Nat.one_le_iff_ne_zero.mpr (Nat.pos_iff_ne_zero.mp
          (List.countP_pos_iff.mpr this))
      · simp [h]
    omega

/-- C3 amended: the code accepts exactly when at least two of the eleven
individual patterns match; two distinct matching categories still
guarantee acceptance, but the converse fails because two patterns of one
category suffice. -/
theorem two_categories_imply_accept (text : String)
    (h : specTwoCategoryRule text = true) :
    isMusicSheetOrTab text = true := by
  have hj : specCategories.flatten = musicPatterns := rfl
  simp only [specTwoCategoryRule, decide_eq_true_eq] at h
  simp only [isMusicSheetOrTab, decide_eq_true_eq]
  calc (2 : Nat) ≤ categoryCountOf text := h
    _ ≤ matchCountOf text := by
        unfold categoryCountOf matchCountOf
        rw [← hj]
        exact countP_groups_le _ _

/-- Witness for `two_categories_imply_accept`: `Allegro 4/4` matches the
tempo and time-signature categories and is accepted. -/
theorem two_categories_imply_accept_witness :
    specTwoCategoryRule "Allegro 4/4" = true ∧
    isMusicSheetOrTab "Allegro 4/4" = true :=
  ⟨by decide, two_categories_imply_accept "Allegro 4/4" (by decide)⟩

/- ### Intake model (Upload.tsx).

The page state relevant to intake is the selected file and the
`isValidFile` / message fields.  Selecting a file runs, in event order:
the synchronous part of `handleFileChange` (line 311), then — when React
flushes at the `await` — the effects on `formData.file` (the size/preview
effect of line 108 and the OSMD viewer effect of line 173), and finally
the awaited OCR validation result of `validateMusicFile` (line 321),
whose state writes land last. -/

structure BrowserFile where
  name : String
  size : Nat
  mime : String
deriving DecidableEq, Repr

/-- `MAX_FILE_SIZE = 5 * 1024 * 1024` (line 53). -/
def maxFileSize : Nat := 5 * 1024 * 1024

/-- `validFileTypes` (line 247). -/
def validFileTypes : List String := ["pdf", "png", "jpg", "jpeg", "svg"]

/-- The `accept` attribute of the sheet file input (line 896). -/
def acceptExts : List String := ["pdf", "png", "jpg", "jpeg", "svg"]

/-- Modelled from the spec: the supported extension set the claim states. -/
def claimSupportedExts : List String :=
  ["pdf", "xml", "musicxml", "mxl", "svg", "png", "jpg", "jpeg"]

/-- `String.startsWith`, computed structurally on the character lists. -/
def strStartsWith (s pre : String) : Bool :=
  pre.data.isPrefixOf s.data

structure DetectOutcome where
  isScore : Bool
  error : String
deriving DecidableEq, Repr

/-- `validateMusicFile` (lines 277-309): PDFs are rasterised and OCRed,
images are OCRed directly, anything else is unsupported; the extracted
text goes through `isMusicSheetOrTab`.  The OCR engine is an oracle;
`Except.error` is a thrown exception reaching the catch. -/
def validateMusicFile (ocr : BrowserFile → Except String String)
    (file : BrowserFile) : DetectOutcome :=
  if file.mime = "application/pdf" ∨ strStartsWith file.mime "image/" then
    match ocr file with
    | .ok text =>
      let ok := isMusicSheetOrTab text
      { isScore := ok,
        error := if ok then "" else
          "Arquivo não contém notação musical válida (partitura, cifra ou tablatura)." }
    | .error e => { isScore := false, error := "Erro ao analisar arquivo: " ++ e }
  else
    { isScore := false, error := "Tipo de arquivo não suportado." }

structure UploadState where
  file : Option BrowserFile
  isValidFile : Option Bool
  errorMsg : String
  validationMessage : String
deriving DecidableEq, Repr

def initialUploadState : UploadState :=
  { file := none, isValidFile := none, errorMsg := "", validationMessage := "" }

/-- The size/preview effect on `formData.file` (lines 108-156): an
oversized file is recorded as invalid and the effect returns; a PDF within
bounds is accepted outright. -/
def fileSizeEffect (st : UploadState) : UploadState :=
  match st.file with
  | none => { st with isValidFile := none, validationMessage := "" }
  | some f =>
    if f.size > maxFileSize then
      { st with errorMsg := "O arquivo excede o tamanho máximo permitido (5MB).",
                isValidFile := some false,
                validationMessage := "Arquivo muito grande. O limite é 5MB." }
    else if f.mime = "application/pdf" then
      { st with isValidFile := some true,
                validationMessage := "PDF aceito para upload." }
    else st

/-- The OSMD viewer effect (lines 173-225), active once an OSMD instance
exists: MusicXML-family and SVG files are loaded into the viewer (the
render outcome is an oracle), PDFs are accepted as previews, anything else
is marked unsupported. -/
def osmdEffect (osmdReady : Bool) (osmdRenders : BrowserFile → Bool)
    (st : UploadState) : UploadState :=
  match st.file with
  | none => st
  | some f =>
    if osmdReady = false then st
    else
      let fileExt := extOfEdge f.name
      if fileExt = "xml" ∨ fileExt = "musicxml" ∨ fileExt = "mxl" ∨ fileExt = "svg" then
        if osmdRenders f then
          { st with isValidFile := some true,
                    validationMessage := "Partitura válida! Pronta para upload." }
        else
          { st with errorMsg := "Erro ao renderizar a partitura.",
                    isValidFile := some false,
                    validationMessage :=
                      "Formato de partitura inválido. Verifique se é um arquivo MusicXML válido." }
      else if fileExt = "pdf" then
        { st with isValidFile := some true,
                  validationMessage := "PDF aceito. Não é possível verificar a estrutura interna." }
      else
        { st with isValidFile := some false,
                  validationMessage := "Tipo de arquivo não suportado. Use MusicXML, SVG ou PDF." }

/-- Selecting a sheet file: the synchronous writes of `handleFileChange`,
then the two effects, then the OCR validation result — the last write to
`isValidFile` wins. -/
def selectSheetFile (ocr : BrowserFile → Except String String)
    (osmdReady : Bool) (osmdRenders : BrowserFile → Bool)
    (st : UploadState) (f : BrowserFile) : UploadState :=
  let st₁ := { st with file := some f, validationMessage := "Validando arquivo...",
                       isValidFile := none, errorMsg := "" }
  let st₂ := osmdEffect osmdReady osmdRenders (fileSizeEffect st₁)
  let vr := validateMusicFile ocr f
  if vr.isScore then
    { st₂ with validationMessage := "Arquivo validado como partitura/cifra!",
               isValidFile := some true }
  else
    let msg := if vr.error = "" then "Arquivo não é uma partitura/cifra reconhecida."
      else vr.error
    { st₂ with validationMessage := msg, isValidFile := some false }

/- Outcome of `handleSubmit` (lines 375-522), with a logged-in session:
either an early return with an error message and no side effect, or the
success path, which uploads the file to storage at
`${user.id}/${Date.now()}-${file.name}` and inserts the `music_sheets`
row (the row creation is what brings a conversion job into existence). -/
inductive SubmitOutcome
  | rejected (msg : String)
  | uploadedAndInserted (storagePath : String)
deriving DecidableEq, Repr

def handleSubmit (title composer instrument userId nowMs : String)
    (st : UploadState) : SubmitOutcome :=
  if title = "" ∨ composer = "" ∨ instrument = "" then
    .rejected "Por favor, preencha todos os campos obrigatórios."
  else
    match st.file with
    | none => .rejected "Por favor, selecione um arquivo de partitura para upload."
    | some f =>
      if st.isValidFile = some false then
        .rejected "O arquivo selecionado não é válido. Por favor, selecione outro arquivo."
      else
        .uploadedAndInserted (userId ++ "/" ++ nowMs ++ "-" ++ f.name)

/- A 6 MiB PDF whose OCR text passes the pattern check. -/
def bigPdf : BrowserFile :=
  { name := "score.pdf", size := 6 * 1024 * 1024, mime := "application/pdf" }

def ocrAllegro : BrowserFile → Except String String :=
  fun _ => Except.ok "Allegro 4/4"

/-- C4 (code bug): the size-check effect marks the 6 MiB file invalid, but
the OCR validation that completes afterwards overwrites `isValidFile` with
`true`, so `handleSubmit` — which only blocks on `isValidFile === false` —
uploads the oversized file and inserts its `music_sheets` row. -/
theorem oversized_file_reaches_upload :
    bigPdf.size > maxFileSize ∧
    (fileSizeEffect { initialUploadState with file := some bigPdf }).isValidFile =
      some false ∧
    (selectSheetFile ocrAllegro true (fun _ => false)
      initialUploadState bigPdf).isValidFile = some true ∧
    handleSubmit "Titulo" "Compositor" "Piano" "u1" "1700000000000"
      (selectSheetFile ocrAllegro true (fun _ => false) initialUploadState bigPdf) =
      .uploadedAndInserted "u1/1700000000000-score.pdf" := by
  refine ⟨by decide, by decide, by decide, by decide⟩

/-- C5 as stated: the intake accepts exactly the claimed extension set. -/
def claimC5 : Prop :=
  ∀ ext : String, validFileTypes.contains ext = claimSupportedExts.contains ext

/-- C5 counterexample: `musicxml` is in the claimed set but not in the
code's accept set. -/
theorem musicxml_missing_from_accept_set : ¬ claimC5 := by
  intro h
  exact absurd (h "musicxml") (by decide)

/-- C5 amended: the file picker's accept attribute and `validFileTypes`
agree on exactly {pdf, png, jpg, jpeg, svg}; the claimed set exceeds it by
exactly the MusicXML family, and a MusicXML file is rejected by
`validateMusicFile` as an unsupported type. -/
theorem intake_accept_set_exact :
    validFileTypes = acceptExts ∧
    claimSupportedExts.filter (fun e => !(validFileTypes.contains e)) =
      ["xml", "musicxml", "mxl"] ∧
    validateMusicFile (fun _ => Except.ok "")
      { name := "a.musicxml", size := 10,
        mime := "application/vnd.recordare.musicxml+xml" } =
      { isScore := false, error := "Tipo de arquivo não suportado." } := by
  refine ⟨rfl, by decide, by decide⟩
